import Mathlib

/-!
Verification of the visitor-management request lifecycle.

Shallow embedding of the core of the repository:
* the `Request` entity (`backend/models`, `requestSchema`), including the
  schema's `status` enum, the `totalDuration` virtual and the pre-save hook
  that assigns `queuePosition`;
* the lifecycle route handlers of `backend/routes/requests.js`
  (`POST /`, `PUT /:id/status`, `PUT /:id/enter`, `PUT /:id/exit`,
  `PUT /:id/cancel`, `GET /queue/:companyId`) and
  `backend/routes/admin.js` (`PUT /requests/:id/force-accept`).

Timestamps are modelled as natural numbers (milliseconds since epoch).
Side effects (Notifier, AuditSink, RealtimeBroadcaster) never touch the
stored `Request`, so they are not part of the state.  A Mongoose
`document.save()` validates the document against the schema; this is
modelled by `trySave`, which checks the enum/range/maxlength validators of
`requestSchema` and fails with the enclosing route's catch-all 500 message.
-/

namespace VisitorMgmt

/-- `requestSchema.status` values used anywhere in the code.  The routes
assign `in-progress` although the schema enum does not list it; see
`statusEnum`. -/
inductive Status
  | pending
  | accepted
  | declined
  | completed
  | cancelled
  | expired
  | inProgress
deriving DecidableEq, Repr

/-- `requestSchema.purpose` enum. -/
inductive Purpose
  | interview
  | casual
  | delivery
  | meeting
  | other
deriving DecidableEq, Repr

/-- `memberResponse.action` enum / the `action` body field of
`PUT /:id/status`. -/
inductive RAction
  | accept
  | decline
  | reschedule
deriving DecidableEq, Repr

/-- `requestSchema.memberResponse` sub-record. -/
structure MemberResponse where
  action : Option RAction := none
  message : Option String := none
  proposedTime : Option Nat := none
  respondedAt : Option Nat := none
deriving DecidableEq, Repr

/-- `requestSchema.entryDetails` sub-record. -/
structure EntryDetails where
  allowedAt : Option Nat := none
  enteredAt : Option Nat := none
  exitedAt : Option Nat := none
  entryGate : Option String := none
  securityPersonnel : Option String := none
deriving DecidableEq, Repr

/-- `requestSchema.notifications` sub-record. -/
structure NotifFlags where
  sentToMember : Bool := false
  sentToVisitor : Bool := false
  lastNotificationSent : Option Nat := none
deriving DecidableEq, Repr

/-- The `Request` document (`requestSchema`). -/
structure Request where
  id : Nat
  visitor : Nat
  company : Nat
  member : Nat
  purpose : Purpose
  purposeDescription : Option String := none
  duration : Nat
  scheduledTime : Option Nat := none
  status : Status := .pending
  priority : Int := 0
  queuePosition : Nat := 0
  estimatedWaitTime : Nat := 0
  memberResponse : MemberResponse := {}
  entryDetails : EntryDetails := {}
  notifs : NotifFlags := {}
  isUrgent : Bool := false
  tags : List String := []
  notes : Option String := none
  createdAt : Nat
deriving DecidableEq, Repr

/-- The schema's `status` enum:
`['pending', 'accepted', 'declined', 'completed', 'cancelled', 'expired']`.
Note that `in-progress` is absent. -/
def statusEnum : List Status :=
  [.pending, .accepted, .declined, .completed, .cancelled, .expired]

def validStatus (s : Status) : Bool := statusEnum.contains s

/-- Mongoose `maxlength` validator on an optional string path. -/
def lenOK (o : Option String) (n : Nat) : Bool :=
  match o with
  | none => true
  | some s => s.length ≤ n

/-- The schema validators on fields no lifecycle operation modifies:
`duration` min/max and the maxlength validators of `purposeDescription`
and `notes`. -/
def baseValid (r : Request) : Bool :=
  decide (5 ≤ r.duration) && decide (r.duration ≤ 480)
    && lenOK r.purposeDescription 200
    && lenOK r.notes 1000

/-- Schema validation run by `document.save()`: the `status` enum, the
maxlength validator of `memberResponse.message`, and the validators in
`baseValid`.  (Required refs and the remaining enums are enforced by the
types of the embedding.) -/
def validDoc (r : Request) : Bool :=
  validStatus r.status && lenOK r.memberResponse.message 500 && baseValid r

/-- Outcome of a route handler: the persisted request on success, or the
HTTP status code and message of the error response. -/
inductive RouteResult (α : Type) where
  | ok (val : α)
  | err (code : Nat) (msg : String)
deriving DecidableEq, Repr

/-- `await request.save()` inside a route whose catch-block responds with
500 and `failMsg`: a validation failure rejects the save and nothing is
persisted. -/
def trySave (failMsg : String) (r : Request) : RouteResult Request :=
  if validDoc r then .ok r else .err 500 failMsg

/-- Sequencing of two awaited store operations: a rejected first save
reaches the catch-block, so the continuation never runs. -/
def bindRR (x : RouteResult Request) (f : Request → RouteResult Request) :
    RouteResult Request :=
  match x with
  | .ok r => f r
  | .err c m => .err c m

/-- The status assigned by each branch of the member-response switch. -/
def respActionStatus : RAction → Status
  | .accept => .accepted
  | .decline => .declined
  | .reschedule => .pending

/-- `PUT /:id/status` (member response), `backend/routes/requests.js`.
`callerId` is `req.user._id` of the authenticated member. -/
def respondToRequest (r : Request) (callerId : Nat) (action : RAction)
    (message : Option String) (proposedTime : Option Nat) (now : Nat) :
    RouteResult Request :=
  if callerId ≠ r.member then .err 403 "Access denied"
  else if r.status ≠ .pending then .err 400 "Request is no longer pending"
  else if action = .reschedule && proposedTime.isNone then
    .err 400 "Proposed time is required for rescheduling"
  else
    let newStatus : Status := respActionStatus action
    let r1 : Request :=
      if action = .reschedule then { r with scheduledTime := proposedTime } else r
    let r2 : Request :=
      { r1 with
        status := newStatus
        memberResponse :=
          { action := some action
            message := message
            proposedTime := proposedTime
            respondedAt := some now } }
    let r3 : Request :=
      if action = .accept then
        { r2 with entryDetails := { r2.entryDetails with allowedAt := some now } }
      else r2
    bindRR (trySave "Failed to update request status" r3) fun r4 =>
      trySave "Failed to update request status"
        { r4 with
          notifs :=
            { r4.notifs with
              sentToVisitor := true
              lastNotificationSent := some now } }

/-- `PUT /requests/:id/force-accept` (admin override),
`backend/routes/admin.js`. -/
def forceAcceptRequest (r : Request) (now : Nat) : RouteResult Request :=
  if r.status ≠ .pending then .err 400 "Request is no longer pending"
  else
    trySave "Failed to force accept request"
      { r with
        status := .accepted
        memberResponse :=
          { action := some .accept
            message := some "Force accepted by admin"
            proposedTime := none
            respondedAt := some now }
        entryDetails := { r.entryDetails with allowedAt := some now } }

/-- `PUT /:id/enter` (admin/security), `backend/routes/requests.js`. -/
def markEntered (r : Request) (entryGate securityPersonnel : Option String)
    (now : Nat) : RouteResult Request :=
  if r.status ≠ .accepted then
    .err 400 "Request must be accepted before marking entry"
  else if r.entryDetails.enteredAt.isSome then
    .err 400 "Visitor has already been marked as entered"
  else
    trySave "Failed to mark visitor as entered"
      { r with
        entryDetails :=
          { r.entryDetails with
            enteredAt := some now
            entryGate := entryGate
            securityPersonnel := securityPersonnel }
        status := .inProgress }

/-- `PUT /:id/exit` (admin/security), `backend/routes/requests.js`. -/
def markExited (r : Request) (now : Nat) : RouteResult Request :=
  if r.entryDetails.enteredAt = none then
    .err 400 "Visitor must be marked as entered before marking exit"
  else if r.entryDetails.exitedAt.isSome then
    .err 400 "Visitor has already been marked as exited"
  else
    trySave "Failed to mark visitor as exited"
      { r with
        entryDetails := { r.entryDetails with exitedAt := some now }
        status := .completed }

/-- The authenticated caller of `PUT /:id/cancel` (`req.userType` is
`admin` or `member`, `req.user._id` its id). -/
inductive Caller
  | admin (id : Nat)
  | member (id : Nat)
deriving DecidableEq, Repr

/-- The `canCancel` permission check of `PUT /:id/cancel`: the caller is
an admin, or is the member the request references. -/
def canCancel (caller : Caller) (r : Request) : Bool :=
  match caller with
  | .admin _ => true
  | .member mid => mid = r.member

/-- `PUT /:id/cancel`, `backend/routes/requests.js`. -/
def cancelRequest (r : Request) (caller : Caller) : RouteResult Request :=
  if ¬canCancel caller r then .err 403 "Access denied"
  else if r.status = .completed ∨ r.status = .cancelled then
    .err 400 "Request cannot be cancelled"
  else
    trySave "Failed to cancel request" { r with status := .cancelled }

/-- `totalDuration` virtual:
`Math.round((exitedAt - enteredAt) / (1000 * 60))` when both stamps are
set, `null` otherwise.  `Math.round x = ⌊x + 1/2⌋`, so for a difference of
`d` milliseconds the result is `⌊(d + 30000) / 60000⌋`. -/
def totalDuration (r : Request) : Option Int :=
  match r.entryDetails.enteredAt, r.entryDetails.exitedAt with
  | some en, some ex => some (Int.fdiv ((ex : Int) - (en : Int) + 30000) 60000)
  | _, _ => none

/-! ## Entity store and the create / queue routes -/

/-- The `Visitor` fields read by `POST /` (`visitorSchema`). -/
structure VisitorRec where
  id : Nat
  isBlacklisted : Bool := false
deriving DecidableEq, Repr

/-- The `Company` fields read by `POST /` and `GET /queue/:companyId`. -/
structure CompanyRec where
  id : Nat
  isActive : Bool := true
deriving DecidableEq, Repr

/-- One element of `memberSchema.companies`. -/
structure MemberCompany where
  company : Nat
  isActive : Bool := true
deriving DecidableEq, Repr

/-- The `Member` fields read by `POST /`. -/
structure MemberRec where
  id : Nat
  isActive : Bool := true
  companies : List MemberCompany := []
deriving DecidableEq, Repr

/-- The document store as seen by the request routes. -/
structure Store where
  visitors : List VisitorRec := []
  companies : List CompanyRec := []
  members : List MemberRec := []
  requests : List Request := []
deriving DecidableEq, Repr

/-- Body of `POST /` after the `validateRequest` middleware. -/
structure CreateBody where
  visitorId : Nat
  companyId : Nat
  memberId : Nat
  purpose : Purpose
  duration : Nat
  purposeDescription : Option String := none
  scheduledTime : Option Nat := none
deriving DecidableEq, Repr

/-- `countDocuments({company, status: pending, createdAt: {$lt: createdAt}})`
of the pre-save hook. -/
def pendingForCompanyBefore (reqs : List Request) (companyId createdAt : Nat) :
    Nat :=
  (reqs.filter fun q =>
    q.company = companyId && q.status = .pending && q.createdAt < createdAt).length

/-- `requestSchema.pre('save')` on a new document: when the status is
`pending`, `queuePosition` becomes `count + 1`. -/
def assignQueuePosition (reqs : List Request) (r : Request) : Request :=
  if r.status = .pending then
    { r with queuePosition := pendingForCompanyBefore reqs r.company r.createdAt + 1 }
  else r

/-- The duplicate-pending lookup of `POST /`:
`Request.findOne({visitor, member, company, status: 'pending'})`. -/
def findDuplicatePending (reqs : List Request) (b : CreateBody) : Option Request :=
  reqs.find? fun q =>
    q.visitor = b.visitorId && q.member = b.memberId && q.company = b.companyId
      && q.status = .pending

/-- `POST /` (create visitor request), `backend/routes/requests.js`.
`now` is the creation timestamp (`createdAt` set by the store), `newId` the
fresh document id.  Returns the route outcome and the resulting store. -/
def createRequest (st : Store) (b : CreateBody) (newId now : Nat) :
    RouteResult Request × Store :=
  match st.visitors.find? fun v => v.id = b.visitorId with
  | none => (.err 404 "Visitor not found", st)
  | some v =>
    if v.isBlacklisted then
      (.err 403 "Visitor is blacklisted and cannot make requests", st)
    else
      match st.companies.find? fun c => c.id = b.companyId with
      | none => (.err 404 "Company not found", st)
      | some c =>
        if ¬c.isActive then (.err 404 "Company not found", st)
        else
          match st.members.find? fun m => m.id = b.memberId with
          | none => (.err 404 "Member not found", st)
          | some m =>
            if ¬m.isActive then (.err 404 "Member not found", st)
            else if (m.companies.find? fun mc =>
                mc.company = b.companyId && mc.isActive).isNone then
              (.err 400 "Member does not belong to this company", st)
            else if (findDuplicatePending st.requests b).isSome then
              (.err 400 "You already have a pending request with this member", st)
            else
              let r0 : Request :=
                { id := newId
                  visitor := b.visitorId
                  company := b.companyId
                  member := b.memberId
                  purpose := b.purpose
                  duration := b.duration
                  purposeDescription := b.purposeDescription
                  scheduledTime := b.scheduledTime
                  status := .pending
                  createdAt := now }
              match trySave "Failed to create request"
                  (assignQueuePosition st.requests r0) with
              | .err c m => (.err c m, st)
              | .ok r1 =>
                let r2 : Request :=
                  { r1 with
                    notifs :=
                      { r1.notifs with
                        sentToMember := true
                        lastNotificationSent := some now } }
                match trySave "Failed to create request" r2 with
                | .err c m => (.err c m, st)
                | .ok r3 => (.ok r3, { st with requests := st.requests ++ [r3] })

/-- `(priority desc, createdAt asc)`:
the sort key of `GET /queue/:companyId`. -/
def queueLE (a b : Request) : Prop :=
  b.priority < a.priority ∨ (a.priority = b.priority ∧ a.createdAt ≤ b.createdAt)

instance : DecidableRel queueLE := fun a b => by
  unfold queueLE; exact inferInstance

instance : IsTotal Request queueLE where
  total a b := by
    unfold queueLE
    rcases lt_trichotomy a.priority b.priority with h | h | h
    · exact Or.inr (Or.inl h)
    · rcases Nat.le_total a.createdAt b.createdAt with h2 | h2
      · exact Or.inl (Or.inr ⟨h, h2⟩)
      · exact Or.inr (Or.inr ⟨h.symm, h2⟩)
    · exact Or.inl (Or.inl h)

instance : IsTrans Request queueLE where
  trans a b c hab hbc := by
    unfold queueLE at *
    rcases hab with h1 | ⟨h1, h1c⟩
    · rcases hbc with h2 | ⟨h2, _⟩
      · exact Or.inl (h2.trans h1)
      · exact Or.inl (h2 ▸ h1)
    · rcases hbc with h2 | ⟨h2, h2c⟩
      · exact Or.inl (h1 ▸ h2)
      · exact Or.inr ⟨h1.trans h2, h1c.trans h2c⟩

/-- The pending requests of a company
(`Request.find({company, status: 'pending'})`). -/
def pendingFor (st : Store) (companyId : Nat) : List Request :=
  st.requests.filter fun q => q.company = companyId && q.status = .pending

/-- The pending requests of a company after
`.sort({priority: -1, createdAt: 1})`. -/
def liveQueue (st : Store) (companyId : Nat) : List Request :=
  List.insertionSort queueLE (pendingFor st companyId)

/-- One element of the `queueData` array built by `GET /queue/:companyId`. -/
structure QueueEntry where
  id : Nat
  position : Nat
  purpose : Purpose
  duration : Nat
  estimatedWaitTime : Nat
  createdAt : Nat
deriving DecidableEq, Repr

/-- `queueData` element at 0-based index `i`
(`position: index + 1`, `estimatedWaitTime: index * 15`). -/
def mkEntry (i : Nat) (q : Request) : QueueEntry :=
  { id := q.id
    position := i + 1
    purpose := q.purpose
    duration := q.duration
    estimatedWaitTime := i * 15
    createdAt := q.createdAt }

/-- `pendingRequests.map((request, index) => ...)` with a running index. -/
def mkEntries (i : Nat) : List Request → List QueueEntry
  | [] => []
  | q :: qs => mkEntry i q :: mkEntries (i + 1) qs

/-- Response body of `GET /queue/:companyId`. -/
structure QueueView where
  queue : List QueueEntry
  totalPending : Nat
  estimatedWaitTime : Nat
deriving DecidableEq, Repr

/-- `GET /queue/:companyId`, `backend/routes/requests.js`. -/
def getQueue (st : Store) (companyId : Nat) : RouteResult QueueView :=
  match st.companies.find? fun c => c.id = companyId with
  | none => .err 404 "Company not found"
  | some c =>
    if ¬c.isActive then .err 404 "Company not found"
    else
      let sorted := liveQueue st companyId
      .ok
        { queue := mkEntries 0 sorted
          totalPending := sorted.length
          estimatedWaitTime := sorted.length * 15 }

/-! ## Sequencing the lifecycle operations on one request -/

/-- A lifecycle operation on an existing request, with the data the route
reads from the caller and the clock. -/
inductive Op
  | respond (callerId : Nat) (action : RAction) (message : Option String)
      (proposedTime : Option Nat) (now : Nat)
  | force (now : Nat)
  | enter (entryGate securityPersonnel : Option String) (now : Nat)
  | markExit (now : Nat)
  | cancel (caller : Caller)
deriving DecidableEq, Repr

/-- Dispatch an operation to its route handler. -/
def runOp (r : Request) : Op → RouteResult Request
  | .respond callerId action message proposedTime now =>
      respondToRequest r callerId action message proposedTime now
  | .force now => forceAcceptRequest r now
  | .enter entryGate securityPersonnel now =>
      markEntered r entryGate securityPersonnel now
  | .markExit now => markExited r now
  | .cancel caller => cancelRequest r caller

/-- The persisted request after an operation: unchanged when the route
answered with an error (guard failures return before any save; a rejected
save persists nothing). -/
def applyOp (r : Request) (o : Op) : Request :=
  match runOp r o with
  | .ok r2 => r2
  | .err _ _ => r

/-- The persisted request after a sequence of operations. -/
def runOps (r : Request) (ops : List Op) : Request := ops.foldl applyOp r

/-! ## The §4.1 state machine -/

/-- The transition edges §4.1 names:
`pending → {accepted, declined, cancelled, expired}`,
`accepted → {in-progress, cancelled}`, `in-progress → {completed}`, and the
`pending` self-loop on reschedule. -/
def claimEdge (s t : Status) : Bool :=
  match s, t with
  | .pending, .accepted => true
  | .pending, .declined => true
  | .pending, .cancelled => true
  | .pending, .expired => true
  | .pending, .pending => true
  | .accepted, .inProgress => true
  | .accepted, .cancelled => true
  | .inProgress, .completed => true
  | _, _ => false

/-- The edges the code actually permits: the §4.1 edges, plus the
cancellations of `declined` / `expired` requests that
`PUT /:id/cancel` accepts (its guard only blocks `completed` and
`cancelled`). -/
def amendedEdge (s t : Status) : Bool :=
  claimEdge s t || (s = .declined && t = .cancelled)
    || (s = .expired && t = .cancelled)

/-- The terminal states of §4.1. -/
def terminalStatus (s : Status) : Bool :=
  s = .completed || s = .declined || s = .cancelled || s = .expired

/-- Invariant of every request reachable from creation: the status is one
of the four statuses the lifecycle routes can persist, and `enteredAt` is
never set (the entry route's save is always rejected by the status enum,
see `markEntered_never_ok`). -/
def ReachInv (r : Request) : Prop :=
  (r.status = .pending ∨ r.status = .accepted ∨ r.status = .declined
      ∨ r.status = .cancelled)
    ∧ r.entryDetails.enteredAt = none

/-- Number of pending requests stored for the `(visitor, member, company)`
triple of a submission. -/
def countPendingTriple (reqs : List Request) (b : CreateBody) : Nat :=
  (reqs.filter fun q =>
    q.visitor = b.visitorId && q.member = b.memberId && q.company = b.companyId
      && q.status = .pending).length

/-- Rewrite the response message of a successful outcome to the admin
override marker (the only difference §4.1 admits between `forceAccept`
and `memberRespond(accept)`). -/
def withAdminMessage (x : RouteResult Request) : RouteResult Request :=
  match x with
  | .ok q =>
      .ok { q with
            memberResponse :=
              { q.memberResponse with message := some "Force accepted by admin" } }
  | .err c m => .err c m

/-- Sample data used to instantiate theorems on concrete inputs. -/
def sampleReq : Request :=
  { id := 1
    visitor := 10
    company := 20
    member := 30
    purpose := .meeting
    duration := 30
    createdAt := 1000 }

/-- A store holding the entities `sampleBody` references and no request. -/
def sampleStore : Store :=
  { visitors := [{ id := 10 }]
    companies := [{ id := 20 }]
    members := [{ id := 30, companies := [{ company := 20 }] }]
    requests := [] }

/-- A well-formed create submission against `sampleStore`. -/
def sampleBody : CreateBody :=
  { visitorId := 10
    companyId := 20
    memberId := 30
    purpose := .meeting
    duration := 30 }

/-- The request `createRequest sampleStore sampleBody 1 1000` persists. -/
def createdSample : Request :=
  { id := 1
    visitor := 10
    company := 20
    member := 30
    purpose := .meeting
    duration := 30
    status := .pending
    queuePosition := 1
    notifs :=
      { sentToMember := true
        sentToVisitor := false
        lastNotificationSent := some 1000 }
    createdAt := 1000 }

/-- `sampleStore` with `createdSample` already stored pending: the target
of a duplicate submission. -/
def dupStore : Store := { sampleStore with requests := [createdSample] }

/-- A request whose visitor has been let in but not out (`enteredAt` set,
`exitedAt` unset). -/
def enteredReq : Request :=
  { sampleReq with
    status := .accepted
    entryDetails := { allowedAt := some 4000, enteredAt := some 5000 } }

/-- A store with three pending requests of one company (two tied on
priority) and one non-pending request, for the queue view. -/
def queueStore : Store :=
  { companies := [{ id := 20 }]
    requests :=
      [{ sampleReq with id := 1, priority := 0, createdAt := 1000 },
       { sampleReq with id := 2, priority := 5, createdAt := 3000 },
       { sampleReq with id := 3, priority := 0, createdAt := 500 },
       { sampleReq with id := 4, status := .accepted, createdAt := 100 }] }

/-- The request `PUT /:id/status` persists for a bare decline on
`sampleReq`. -/
def declinedSample : Request :=
  { sampleReq with
    status := .declined
    memberResponse := { action := some .decline, respondedAt := some 2000 }
    notifs := { sentToVisitor := true, lastNotificationSent := some 2000 } }

/-! ## Helper lemmas -/

theorem trySave_ok_iff {msg : String} {r r2 : Request} :
    trySave msg r = .ok r2 ↔ validDoc r = true ∧ r2 = r := by
  unfold trySave
  split
  · rename_i hv
    constructor
    · intro h
      injection h with h2
      exact ⟨hv, h2.symm⟩
    · rintro ⟨_, rfl⟩
      rfl
  · rename_i hv
    constructor
    · intro h
      exact absurd h (by simp)
    · rintro ⟨hv2, _⟩
      exact absurd hv2 hv

theorem trySave_ok_eq {m : String} {r r2 : Request}
    (h : trySave m r = .ok r2) : r2 = r :=
  (trySave_ok_iff.mp h).2

theorem bindRR_ok_iff {x : RouteResult Request} {f : Request → RouteResult Request}
    {y : Request} :
    bindRR x f = .ok y ↔ ∃ r, x = .ok r ∧ f r = .ok y := by
  cases x <;> simp [bindRR]

example :
    respondToRequest sampleReq 30 .accept none none 2000 =
      .ok { sampleReq with
            status := .accepted
            memberResponse :=
              { action := some .accept, respondedAt := some 2000 }
            entryDetails := { allowedAt := some 2000 }
            notifs := { sentToVisitor := true, lastNotificationSent := some 2000 } } := by
  decide

example :
    markEntered { sampleReq with status := .accepted } (some "North") (some "Sam") 3000 =
      .err 500 "Failed to mark visitor as entered" := by
  decide

example :
    cancelRequest { sampleReq with status := .declined } (.admin 7) =
      .ok { sampleReq with status := .cancelled } := by
  decide

/-- Successful member response: the guards held and the persisted document
is the input with exactly the response fields rewritten. -/
theorem respond_ok_shape {r r2 : Request} {cid : Nat} {a : RAction}
    {m : Option String} {p : Option Nat} {now : Nat}
    (h : respondToRequest r cid a m p now = .ok r2) :
    cid = r.member ∧ r.status = .pending
      ∧ r2 = { r with
          scheduledTime := if a = .reschedule then p else r.scheduledTime
          status := respActionStatus a
          memberResponse :=
            { action := some a
              message := m
              proposedTime := p
              respondedAt := some now }
          entryDetails :=
            if a = .accept then { r.entryDetails with allowedAt := some now }
            else r.entryDetails
          notifs :=
            { r.notifs with
              sentToVisitor := true
              lastNotificationSent := some now } } := by
  cases a <;>
    · unfold respondToRequest at h
      split at h
      · simp at h
      split at h
      · simp at h
      split at h
      · simp at h
      · rename_i hcid hst _
        simp only [bindRR_ok_iff, trySave_ok_iff] at h
        obtain ⟨r4, ⟨hv1, rfl⟩, hv2, rfl⟩ := h
        refine ⟨by omega, by simpa using hst, ?_⟩
        simp [respActionStatus]

/-- Successful force-accept: the request was pending and the persisted
document is the input with the admin response recorded. -/
theorem force_ok_shape {r r2 : Request} {now : Nat}
    (h : forceAcceptRequest r now = .ok r2) :
    r.status = .pending
      ∧ r2 = { r with
          status := .accepted
          memberResponse :=
            { action := some .accept
              message := some "Force accepted by admin"
              proposedTime := none
              respondedAt := some now }
          entryDetails := { r.entryDetails with allowedAt := some now } } := by
  unfold forceAcceptRequest at h
  split at h
  · simp at h
  · rename_i hst
    have h2 := trySave_ok_eq h
    subst h2
    exact ⟨by simpa using hst, rfl⟩

/-- `markEntered` never persists: the route sets `status` to
`in-progress`, which the schema enum rejects, so the save always fails. -/
theorem markEntered_never_ok (r : Request) (g s : Option String) (now : Nat)
    (r2 : Request) : markEntered r g s now ≠ .ok r2 := by
  unfold markEntered
  split
  · simp
  split
  · simp
  · simp [trySave, validDoc, validStatus, statusEnum]

/-- Successful exit marking: the guards held and the persisted document is
the input with `exitedAt` set and status `completed`. -/
theorem exit_ok_shape {r r2 : Request} {now : Nat}
    (h : markExited r now = .ok r2) :
    r.entryDetails.enteredAt ≠ none ∧ r.entryDetails.exitedAt = none
      ∧ r2 = { r with
          entryDetails := { r.entryDetails with exitedAt := some now }
          status := .completed } := by
  unfold markExited at h
  split at h
  · simp at h
  split at h
  · simp at h
  · rename_i h1 h2
    have h3 := trySave_ok_eq h
    subst h3
    exact ⟨h1, by simpa using h2, rfl⟩

/-- Successful cancellation: the caller was allowed, the status was
neither `completed` nor `cancelled`, and the persisted document is the
input with status `cancelled`. -/
theorem cancel_ok_shape {r r2 : Request} {c : Caller}
    (h : cancelRequest r c = .ok r2) :
    ¬(r.status = .completed ∨ r.status = .cancelled)
      ∧ r2 = { r with status := .cancelled } := by
  unfold cancelRequest at h
  split at h
  · simp at h
  split at h
  · simp at h
  · rename_i h1 h2
    have h3 := trySave_ok_eq h
    subst h3
    exact ⟨h2, rfl⟩

/-- An accept response by the owning member on a pending, schema-valid
request succeeds and persists exactly the accept effects. -/
theorem respond_accept_ok {r : Request} {m : Option String} {p : Option Nat}
    (now : Nat) (hs : r.status = .pending) (hm : lenOK m 500 = true)
    (hb : baseValid r = true) :
    respondToRequest r r.member .accept m p now =
      .ok { r with
        status := .accepted
        memberResponse :=
          { action := some .accept
            message := m
            proposedTime := p
            respondedAt := some now }
        entryDetails := { r.entryDetails with allowedAt := some now }
        notifs :=
          { r.notifs with
            sentToVisitor := true
            lastNotificationSent := some now } } := by
  have hb2 := hb
  simp only [baseValid, Bool.and_eq_true, decide_eq_true_eq] at hb2
  obtain ⟨⟨⟨h5, h480⟩, hpd⟩, hn⟩ := hb2
  unfold respondToRequest
  simp [hs, trySave, validDoc, validStatus, statusEnum, bindRR, hm, baseValid,
    respActionStatus, h5, h480, hpd, hn]

/-- A decline response by the owning member on a pending, schema-valid
request succeeds and persists exactly the decline effects. -/
theorem respond_decline_ok {r : Request} {m : Option String} {p : Option Nat}
    (now : Nat) (hs : r.status = .pending) (hm : lenOK m 500 = true)
    (hb : baseValid r = true) :
    respondToRequest r r.member .decline m p now =
      .ok { r with
        status := .declined
        memberResponse :=
          { action := some .decline
            message := m
            proposedTime := p
            respondedAt := some now }
        notifs :=
          { r.notifs with
            sentToVisitor := true
            lastNotificationSent := some now } } := by
  have hb2 := hb
  simp only [baseValid, Bool.and_eq_true, decide_eq_true_eq] at hb2
  obtain ⟨⟨⟨h5, h480⟩, hpd⟩, hn⟩ := hb2
  unfold respondToRequest
  simp [hs, trySave, validDoc, validStatus, statusEnum, bindRR, hm, baseValid,
    respActionStatus, h5, h480, hpd, hn]

/-- A reschedule response with a proposed time by the owning member on a
pending, schema-valid request succeeds: the status stays `pending` and
`scheduledTime` becomes the proposed time. -/
theorem respond_reschedule_ok {r : Request} {m : Option String} {t : Nat}
    (now : Nat) (hs : r.status = .pending) (hm : lenOK m 500 = true)
    (hb : baseValid r = true) :
    respondToRequest r r.member .reschedule m (some t) now =
      .ok { r with
        scheduledTime := some t
        status := .pending
        memberResponse :=
          { action := some .reschedule
            message := m
            proposedTime := some t
            respondedAt := some now }
        notifs :=
          { r.notifs with
            sentToVisitor := true
            lastNotificationSent := some now } } := by
  have hb2 := hb
  simp only [baseValid, Bool.and_eq_true, decide_eq_true_eq] at hb2
  obtain ⟨⟨⟨h5, h480⟩, hpd⟩, hn⟩ := hb2
  unfold respondToRequest
  simp [hs, trySave, validDoc, validStatus, statusEnum, bindRR, hm, baseValid,
    respActionStatus, h5, h480, hpd, hn]

/-- Force-accept on a pending, schema-valid request succeeds and persists
exactly the admin-override effects. -/
theorem forceAccept_ok {r : Request} (now : Nat) (hs : r.status = .pending)
    (hb : baseValid r = true) :
    forceAcceptRequest r now =
      .ok { r with
        status := .accepted
        memberResponse :=
          { action := some .accept
            message := some "Force accepted by admin"
            proposedTime := none
            respondedAt := some now }
        entryDetails := { r.entryDetails with allowedAt := some now } } := by
  have hb2 := hb
  simp only [baseValid, Bool.and_eq_true, decide_eq_true_eq] at hb2
  obtain ⟨⟨⟨h5, h480⟩, hpd⟩, hn⟩ := hb2
  have hmsg : lenOK (some "Force accepted by admin") 500 = true := by decide
  unfold forceAcceptRequest
  simp [hs, trySave, validDoc, validStatus, statusEnum, baseValid,
    h5, h480, hpd, hn, hmsg]

/-- No operation ever changes `queuePosition`. -/
theorem applyOp_queuePosition (r : Request) (o : Op) :
    (applyOp r o).queuePosition = r.queuePosition := by
  unfold applyOp
  rcases ho : runOp r o with r2 | ⟨c, msg⟩
  · cases o
    · rename_i cid a m p now
      simp only [runOp] at ho
      rw [(respond_ok_shape ho).2.2]
    · rename_i now
      simp only [runOp] at ho
      rw [(force_ok_shape ho).2]
    · rename_i g s now
      simp only [runOp] at ho
      exact absurd ho (markEntered_never_ok r g s now r2)
    · rename_i now
      simp only [runOp] at ho
      rw [(exit_ok_shape ho).2.2]
    · rename_i c2
      simp only [runOp] at ho
      rw [(cancel_ok_shape ho).2]
  · rfl

/-- `queuePosition` is unchanged by any sequence of operations. -/
theorem runOps_queuePosition (r : Request) (ops : List Op) :
    (runOps r ops).queuePosition = r.queuePosition := by
  induction ops generalizing r with
  | nil => rfl
  | cons o ops ih =>
      simpa [runOps, List.foldl] using
        (ih (applyOp r o)).trans (applyOp_queuePosition r o)

/-- One operation preserves the reachability invariant, only moves the
status along an `amendedEdge`, and never changes a request whose status is
`completed` or `cancelled`. -/
theorem applyOp_step (r : Request) (o : Op) (hI : ReachInv r) :
    ReachInv (applyOp r o)
      ∧ ((applyOp r o).status = r.status
          ∨ amendedEdge r.status (applyOp r o).status = true)
      ∧ ((r.status = .completed ∨ r.status = .cancelled) → applyOp r o = r) := by
  obtain ⟨hst, hent⟩ := hI
  unfold applyOp
  rcases ho : runOp r o with r2 | ⟨c, msg⟩
  · cases o
    · rename_i cid a m p now
      simp only [runOp] at ho
      obtain ⟨-, hpend, he⟩ := respond_ok_shape ho
      rw [he]
      cases a <;>
        simp [ReachInv, amendedEdge, claimEdge, respActionStatus, hpend, hent]
    · rename_i now
      simp only [runOp] at ho
      obtain ⟨hpend, he⟩ := force_ok_shape ho
      rw [he]
      simp [ReachInv, amendedEdge, claimEdge, hpend, hent]
    · rename_i g s now
      simp only [runOp] at ho
      exact absurd ho (markEntered_never_ok r g s now r2)
    · rename_i now
      simp only [runOp] at ho
      obtain ⟨hne, -, -⟩ := exit_ok_shape ho
      exact absurd hent hne
    · rename_i c2
      simp only [runOp] at ho
      obtain ⟨hnc, he⟩ := cancel_ok_shape ho
      rcases hst with h | h | h | h
      · rw [he]
        simp [ReachInv, amendedEdge, claimEdge, h, hent]
      · rw [he]
        simp [ReachInv, amendedEdge, claimEdge, h, hent]
      · rw [he]
        simp [ReachInv, amendedEdge, claimEdge, h, hent]
      · exact absurd (Or.inr h) hnc
  · exact ⟨⟨hst, hent⟩, Or.inl rfl, fun _ => rfl⟩

/-- The reachability invariant holds along any operation sequence. -/
theorem runOps_inv (r : Request) (ops : List Op) (hI : ReachInv r) :
    ReachInv (runOps r ops) := by
  induction ops generalizing r with
  | nil => exact hI
  | cons o ops ih => exact ih (applyOp r o) (applyOp_step r o hI).1

/-- Successful creation: the persisted request is the submitted data with
status `pending`, `queuePosition` one more than the number of earlier
pending requests of the company, and the member-notification bookkeeping
set; the store gains exactly that request. -/
theorem createRequest_ok_shape {st : Store} {b : CreateBody} {newId now : Nat}
    {r0 : Request} {st2 : Store}
    (h : createRequest st b newId now = (.ok r0, st2)) :
    r0 = { id := newId
           visitor := b.visitorId
           company := b.companyId
           member := b.memberId
           purpose := b.purpose
           duration := b.duration
           purposeDescription := b.purposeDescription
           scheduledTime := b.scheduledTime
           status := .pending
           queuePosition := pendingForCompanyBefore st.requests b.companyId now + 1
           notifs :=
             { sentToMember := true
               sentToVisitor := false
               lastNotificationSent := some now }
           createdAt := now }
      ∧ st2 = { st with requests := st.requests ++ [r0] } := by
  unfold createRequest at h
  split at h
  · simp at h
  split at h
  · simp at h
  split at h
  · simp at h
  split at h
  · simp at h
  split at h
  · simp at h
  split at h
  · simp at h
  split at h
  · simp at h
  split at h
  · simp at h
  dsimp only at h
  split at h
  · simp at h
  · rename_i r1 heq1
    split at h
    · simp at h
    · rename_i r2 heq2
      have e1 := trySave_ok_eq heq1
      have e2 := trySave_ok_eq heq2
      obtain ⟨h1, h2⟩ := Prod.mk.injEq .. |>.mp h
      injection h1 with h1
      subst e2 e1 h1 h2
      refine ⟨by simp [assignQueuePosition], by simp⟩

/-! ## Claims -/

/-- **C1** (as stated, refuted): the claim asserts no operation moves a
request out of a terminal state, `declined` included.  But
`PUT /:id/cancel` only blocks `completed` and `cancelled`, so a declined
request — reached from a fresh pending request by the owning member's
decline — is cancelled by an admin: the observed transition
`declined → cancelled` is not an edge of the §4.1 table. -/
theorem C1_counterexample :
    (runOps sampleReq [Op.respond 30 .decline none none 2000]).status = .declined
      ∧ terminalStatus .declined = true
      ∧ (runOps sampleReq [Op.respond 30 .decline none none 2000,
          Op.cancel (Caller.admin 7)]).status = .cancelled
      ∧ claimEdge .declined .cancelled = false := by
  decide

/-- **C1** (amended): along any operation sequence from a freshly created
request (status `pending`, `enteredAt` unset), every status change follows
an edge of §4.1 *or* is one of the two extra cancellations the code
permits (`declined → cancelled`, `expired → cancelled`), and no operation
changes a request whose status is `completed` or `cancelled`. -/
theorem C1_status_transitions (r0 : Request) (h1 : r0.status = .pending)
    (h2 : r0.entryDetails.enteredAt = none) (ops : List Op) (o : Op) :
    ((applyOp (runOps r0 ops) o).status = (runOps r0 ops).status
        ∨ amendedEdge (runOps r0 ops).status
            ((applyOp (runOps r0 ops) o).status) = true)
      ∧ (((runOps r0 ops).status = .completed
            ∨ (runOps r0 ops).status = .cancelled) →
          applyOp (runOps r0 ops) o = runOps r0 ops) := by
  have hI := runOps_inv r0 ops ⟨Or.inl h1, h2⟩
  exact ⟨(applyOp_step _ o hI).2.1, (applyOp_step _ o hI).2.2⟩

/-- Witness for `C1_status_transitions` at a concrete request and
operation. -/
theorem C1_status_transitions_witness :
    ((applyOp (runOps sampleReq []) (Op.cancel (Caller.admin 1))).status
          = (runOps sampleReq []).status
        ∨ amendedEdge (runOps sampleReq []).status
            ((applyOp (runOps sampleReq []) (Op.cancel (Caller.admin 1))).status)
          = true)
      ∧ (((runOps sampleReq []).status = .completed
            ∨ (runOps sampleReq []).status = .cancelled) →
          applyOp (runOps sampleReq []) (Op.cancel (Caller.admin 1))
            = runOps sampleReq []) :=
  C1_status_transitions sampleReq rfl rfl [] (Op.cancel (Caller.admin 1))

/-- **C6**: `queuePosition` is assigned at creation as one more than the
number of pending requests of the same company created strictly earlier,
and no sequence of later lifecycle operations ever changes it. -/
theorem C6_queue_position_immutable (st : Store) (b : CreateBody)
    (newId now : Nat) (r0 : Request) (st2 : Store)
    (h : createRequest st b newId now = (.ok r0, st2)) (ops : List Op) :
    r0.queuePosition = pendingForCompanyBefore st.requests b.companyId now + 1
      ∧ (runOps r0 ops).queuePosition = r0.queuePosition := by
  obtain ⟨hr, -⟩ := createRequest_ok_shape h
  exact ⟨by rw [hr], runOps_queuePosition r0 ops⟩

/-- Witness for `C6_queue_position_immutable`: a concrete creation against
`sampleStore` followed by a status-changing operation. -/
theorem C6_queue_position_witness :
    createdSample.queuePosition
        = pendingForCompanyBefore sampleStore.requests sampleBody.companyId 1000 + 1
      ∧ (runOps createdSample [Op.cancel (Caller.admin 1)]).queuePosition
          = createdSample.queuePosition :=
  C6_queue_position_immutable sampleStore sampleBody 1 1000 createdSample
    { sampleStore with requests := [createdSample] } (by decide)
    [Op.cancel (Caller.admin 1)]

/-- **C2**: when a pending request for the same
`(visitor, member, company)` triple already exists (and the earlier entity
guards pass), `POST /` answers with the duplicate-pending Conflict error,
stores nothing, and the number of pending requests for the triple stays at
most one. -/
theorem C2_duplicate_pending_conflict (st : Store) (b : CreateBody)
    (newId now : Nat) (v : VisitorRec)
    (hv : st.visitors.find? (fun x => x.id = b.visitorId) = some v)
    (hvb : v.isBlacklisted = false)
    (c : CompanyRec)
    (hc : st.companies.find? (fun x => x.id = b.companyId) = some c)
    (hca : c.isActive = true)
    (m : MemberRec)
    (hm : st.members.find? (fun x => x.id = b.memberId) = some m)
    (hma : m.isActive = true)
    (hmc : (m.companies.find? fun mc =>
        mc.company = b.companyId && mc.isActive).isSome = true)
    (hdup : (findDuplicatePending st.requests b).isSome = true) :
    createRequest st b newId now =
        (.err 400 "You already have a pending request with this member", st)
      ∧ (createRequest st b newId now).2.requests = st.requests
      ∧ (countPendingTriple st.requests b ≤ 1 →
          countPendingTriple (createRequest st b newId now).2.requests b ≤ 1) := by
  obtain ⟨mc, hmc2⟩ := Option.isSome_iff_exists.mp hmc
  obtain ⟨d, hd2⟩ := Option.isSome_iff_exists.mp hdup
  have hmain : createRequest st b newId now =
      (.err 400 "You already have a pending request with this member", st) := by
    unfold createRequest
    simp [hv, hc, hm, hmc2, hd2, hvb, hca, hma]
  refine ⟨hmain, by rw [hmain], fun hle => by rwa [hmain]⟩

/-- Witness for `C2_duplicate_pending_conflict` on `dupStore`, which
already holds `createdSample` pending for the triple of `sampleBody`. -/
theorem C2_duplicate_pending_witness :
    createRequest dupStore sampleBody 2 5000 =
        (.err 400 "You already have a pending request with this member",
          dupStore)
      ∧ (createRequest dupStore sampleBody 2 5000).2.requests
          = dupStore.requests
      ∧ (countPendingTriple dupStore.requests sampleBody ≤ 1 →
          countPendingTriple (createRequest dupStore sampleBody 2 5000).2.requests
            sampleBody ≤ 1) :=
  C2_duplicate_pending_conflict dupStore sampleBody 2 5000
    { id := 10 } (by decide) (by decide)
    { id := 20 } (by decide) (by decide)
    { id := 30, companies := [{ company := 20 }] } (by decide) (by decide)
    (by decide) (by decide)

/-- **C3**: on a pending, schema-valid request, a reschedule response by
the owning member keeps the status `pending` and stores the proposed time
as `scheduledTime`; a subsequent accept by the same member then succeeds
and moves the status to `accepted`. -/
theorem C3_reschedule_then_accept (r : Request) (hs : r.status = .pending)
    (hb : baseValid r = true) (m1 m2 : Option String)
    (hm1 : lenOK m1 500 = true) (hm2 : lenOK m2 500 = true)
    (t1 now1 now2 : Nat) :
    ∃ r1 r2,
      respondToRequest r r.member .reschedule m1 (some t1) now1 = .ok r1
        ∧ r1.status = .pending
        ∧ r1.scheduledTime = some t1
        ∧ r1.member = r.member
        ∧ respondToRequest r1 r1.member .accept m2 none now2 = .ok r2
        ∧ r2.status = .accepted := by
  exact ⟨_, _, respond_reschedule_ok now1 hs hm1 hb, rfl, rfl, rfl,
    respond_accept_ok now2 rfl hm2 hb, rfl⟩

/-- Witness for `C3_reschedule_then_accept` on `sampleReq`. -/
theorem C3_reschedule_then_accept_witness :
    ∃ r1 r2,
      respondToRequest sampleReq sampleReq.member .reschedule
          (some "later please") (some 9000) 2000 = .ok r1
        ∧ r1.status = .pending
        ∧ r1.scheduledTime = some 9000
        ∧ r1.member = sampleReq.member
        ∧ respondToRequest r1 r1.member .accept none none 2500 = .ok r2
        ∧ r2.status = .accepted :=
  C3_reschedule_then_accept sampleReq rfl (by decide)
    (some "later please") none (by decide) (by decide) 9000 2000 2500

/-- An operation whose route answered with an error leaves the stored
request unchanged. -/
theorem applyOp_eq_self {r : Request} {o : Op} {c : Nat} {m : String}
    (h : runOp r o = .err c m) : applyOp r o = r := by
  unfold applyOp
  rw [h]

/-- **C4**: with `enteredAt` set and `exitedAt` unset (and the document
schema-valid), `PUT /:id/exit` sets `exitedAt` to the current time,
advances the status to `completed`, and `totalDuration` becomes the
rounded minutes between `enteredAt` and `exitedAt`.  If `enteredAt` is
unset or `exitedAt` is already set, the route answers with a 400 Conflict
error and persists nothing.  `totalDuration` is defined exactly when both
timestamps are set. -/
theorem C4_exit_completion (r : Request) (now : Nat)
    (hb : baseValid r = true)
    (hm : lenOK r.memberResponse.message 500 = true) :
    (∀ en, r.entryDetails.enteredAt = some en →
      r.entryDetails.exitedAt = none →
      markExited r now =
          .ok { r with
                entryDetails := { r.entryDetails with exitedAt := some now }
                status := .completed }
        ∧ totalDuration
            { r with
              entryDetails := { r.entryDetails with exitedAt := some now }
              status := .completed }
            = some (Int.fdiv ((now : Int) - (en : Int) + 30000) 60000))
    ∧ ((r.entryDetails.enteredAt = none ∨ r.entryDetails.exitedAt.isSome = true) →
        (∃ msg, markExited r now = .err 400 msg)
          ∧ applyOp r (.markExit now) = r)
    ∧ (∀ q : Request, (totalDuration q).isSome = true ↔
        (q.entryDetails.enteredAt.isSome = true
          ∧ q.entryDetails.exitedAt.isSome = true)) := by
  have hb2 := hb
  simp only [baseValid, Bool.and_eq_true, decide_eq_true_eq] at hb2
  obtain ⟨⟨⟨h5, h480⟩, hpd⟩, hn⟩ := hb2
  refine ⟨?_, ?_, ?_⟩
  · intro en hen hex
    constructor
    · unfold markExited
      simp [hen, hex, trySave, validDoc, validStatus, statusEnum, baseValid,
        h5, h480, hpd, hn, hm]
    · simp [totalDuration, hen]
  · intro hcase
    have herr : ∃ msg, markExited r now = .err 400 msg := by
      unfold markExited
      rcases hent : r.entryDetails.enteredAt with _ | en
      · simp
      · rcases hcase with hc | hc
        · rw [hent] at hc
          cases hc
        · simp [hc]
    obtain ⟨msg, hmsg⟩ := herr
    exact ⟨⟨msg, hmsg⟩, applyOp_eq_self (by simpa [runOp] using hmsg)⟩
  · intro q
    unfold totalDuration
    rcases q.entryDetails.enteredAt with _ | en <;>
      rcases q.entryDetails.exitedAt with _ | ex <;> simp

/-- Witness for `C4_exit_completion` on `enteredReq` at time 7000. -/
theorem C4_exit_completion_witness :
    (∀ en, enteredReq.entryDetails.enteredAt = some en →
      enteredReq.entryDetails.exitedAt = none →
      markExited enteredReq 7000 =
          .ok { enteredReq with
                entryDetails :=
                  { enteredReq.entryDetails with exitedAt := some 7000 }
                status := .completed }
        ∧ totalDuration
            { enteredReq with
              entryDetails :=
                { enteredReq.entryDetails with exitedAt := some 7000 }
              status := .completed }
            = some (Int.fdiv ((7000 : Int) - (en : Int) + 30000) 60000))
    ∧ ((enteredReq.entryDetails.enteredAt = none
          ∨ enteredReq.entryDetails.exitedAt.isSome = true) →
        (∃ msg, markExited enteredReq 7000 = .err 400 msg)
          ∧ applyOp enteredReq (.markExit 7000) = enteredReq)
    ∧ (∀ q : Request, (totalDuration q).isSome = true ↔
        (q.entryDetails.enteredAt.isSome = true
          ∧ q.entryDetails.exitedAt.isSome = true)) :=
  C4_exit_completion enteredReq 7000 (by decide) (by decide)

theorem mkEntries_map_id (i : Nat) (l : List Request) :
    (mkEntries i l).map QueueEntry.id = l.map Request.id := by
  induction l generalizing i with
  | nil => rfl
  | cons q qs ih => simp [mkEntries, mkEntry, ih]

/-- The `queueData` entry at 0-based index `j` carries position `i+j+1`
and wait time `(i+j) * 15`. -/
theorem mkEntries_get? (i j : Nat) (l : List Request) :
    ((mkEntries i l).get? j).map (fun e => (e.position, e.estimatedWaitTime))
      = if j < l.length then some (i + j + 1, (i + j) * 15) else none := by
  induction l generalizing i j with
  | nil => simp [mkEntries]
  | cons q qs ih =>
      cases j with
      | zero => simp [mkEntries, mkEntry]
      | succ j =>
          simp only [mkEntries, List.get?_cons_succ, List.length_cons]
          rw [ih (i + 1) j]
          by_cases hj : j < qs.length
          · rw [if_pos hj, if_pos (by omega)]
            have h1 : i + 1 + j + 1 = i + (j + 1) + 1 := by omega
            have h2 : (i + 1 + j) * 15 = (i + (j + 1)) * 15 := by omega
            rw [h1, h2]
          · rw [if_neg hj, if_neg (by omega)]

/-- Every `queueData` entry satisfies
`estimatedWaitTime = 15 × (position - 1)`. -/
theorem mkEntries_wait (i : Nat) (l : List Request) :
    ∀ e ∈ mkEntries i l, e.estimatedWaitTime = 15 * (e.position - 1) := by
  induction l generalizing i with
  | nil => simp [mkEntries]
  | cons q qs ih =>
      intro e he
      simp only [mkEntries, List.mem_cons] at he
      rcases he with rfl | he
      · simp [mkEntry, Nat.mul_comm]
      · exact ih (i + 1) e he

/-- **C5**: for an active company, the queue view returns exactly its
pending requests, ordered by `(priority desc, createdAt asc)`; the entry
at 0-based index `j` has position `j + 1` and wait time `j * 15`, so
every entry satisfies `estimatedWaitTime = 15 × (position − 1)`. -/
theorem C5_live_queue_view (st : Store) (companyId : Nat) (c : CompanyRec)
    (hc : st.companies.find? (fun x => x.id = companyId) = some c)
    (hca : c.isActive = true) :
    ∃ view, getQueue st companyId = .ok view
      ∧ view.queue = mkEntries 0 (liveQueue st companyId)
      ∧ (liveQueue st companyId).Perm (pendingFor st companyId)
      ∧ List.Sorted queueLE (liveQueue st companyId)
      ∧ view.queue.map QueueEntry.id = (liveQueue st companyId).map Request.id
      ∧ view.totalPending = (pendingFor st companyId).length
      ∧ (∀ j, (view.queue.get? j).map (fun e => (e.position, e.estimatedWaitTime))
          = if j < (liveQueue st companyId).length then some (j + 1, j * 15)
            else none)
      ∧ (∀ e ∈ view.queue, e.estimatedWaitTime = 15 * (e.position - 1)) := by
  have hmain : getQueue st companyId =
      .ok { queue := mkEntries 0 (liveQueue st companyId)
            totalPending := (liveQueue st companyId).length
            estimatedWaitTime := (liveQueue st companyId).length * 15 } := by
    unfold getQueue
    rw [hc]
    simp [hca]
  refine ⟨_, hmain, rfl, List.perm_insertionSort queueLE _,
    List.sorted_insertionSort queueLE _, mkEntries_map_id 0 _,
    (List.perm_insertionSort queueLE _).length_eq, ?_, mkEntries_wait 0 _⟩
  intro j
  simpa using mkEntries_get? 0 j (liveQueue st companyId)

/-- Witness for `C5_live_queue_view` on `queueStore` (three pending
requests, one tie broken by `createdAt`, one non-pending excluded). -/
theorem C5_live_queue_witness :
    ∃ view, getQueue queueStore 20 = .ok view
      ∧ view.queue = mkEntries 0 (liveQueue queueStore 20)
      ∧ (liveQueue queueStore 20).Perm (pendingFor queueStore 20)
      ∧ List.Sorted queueLE (liveQueue queueStore 20)
      ∧ view.queue.map QueueEntry.id = (liveQueue queueStore 20).map Request.id
      ∧ view.totalPending = (pendingFor queueStore 20).length
      ∧ (∀ j, (view.queue.get? j).map (fun e => (e.position, e.estimatedWaitTime))
          = if j < (liveQueue queueStore 20).length then some (j + 1, j * 15)
            else none)
      ∧ (∀ e ∈ view.queue, e.estimatedWaitTime = 15 * (e.position - 1)) :=
  C5_live_queue_view queueStore 20 { id := 20 } (by decide) (by decide)

example : (liveQueue queueStore 20).map Request.id = [2, 3, 1] := by decide

/-- **C7** (claim refuted by a schema slip in the code): `PUT /:id/enter`
never succeeds.  The route sets `status` to `in-progress`, a value the
schema's `status` enum does not list, so Mongoose rejects every save: even
with the guards satisfied (status `accepted`, `enteredAt` unset) the route
answers 500 and persists nothing — it never reaches the `in-progress`
state the spec describes, and a second call repeats the same 500 rather
than the specified Conflict. -/
theorem C7_enter_rejected_by_schema :
    (∀ (r r2 : Request) (g s : Option String) (now : Nat),
        markEntered r g s now ≠ .ok r2)
      ∧ validStatus .inProgress = false
      ∧ markEntered { sampleReq with status := .accepted }
          (some "North") (some "Sam") 3000
          = .err 500 "Failed to mark visitor as entered"
      ∧ applyOp { sampleReq with status := .accepted }
          (.enter (some "North") (some "Sam") 3000)
          = { sampleReq with status := .accepted } :=
  ⟨fun r r2 g s now => markEntered_never_ok r g s now r2,
    by decide, by decide, by decide⟩

/-- **C9** (as stated, refuted): force-accept is *not* the accept response
with only the message replaced — the member-response route additionally
marks the visitor-notification bookkeeping
(`notifications.sentToVisitor`, `lastNotificationSent`) before its second
save, while the admin route leaves `notifications` untouched. -/
theorem C9_counterexample :
    withAdminMessage (respondToRequest sampleReq 30 .accept (some "hi") none 2000)
        ≠ forceAcceptRequest sampleReq 2000
      ∧ forceAcceptRequest sampleReq 2000 =
          .ok { sampleReq with
                status := .accepted
                memberResponse :=
                  { action := some .accept
                    message := some "Force accepted by admin"
                    proposedTime := none
                    respondedAt := some 2000 }
                entryDetails := { allowedAt := some 2000 } }
      ∧ respondToRequest sampleReq 30 .accept (some "hi") none 2000 =
          .ok { sampleReq with
                status := .accepted
                memberResponse :=
                  { action := some .accept
                    message := some "hi"
                    proposedTime := none
                    respondedAt := some 2000 }
                entryDetails := { allowedAt := some 2000 }
                notifs :=
                  { sentToVisitor := true
                    lastNotificationSent := some 2000 } } := by
  exact ⟨by decide, by decide, by decide⟩

/-- **C9** (amended): on a pending, schema-valid request, force-accept
produces exactly the state of a member accept with the response message
replaced by the admin-override marker *and* the visitor-notification
bookkeeping left untouched (the member route marks
`notifications.sentToVisitor`; the admin route does not). -/
theorem C9_force_accept_equiv (r : Request) (hs : r.status = .pending)
    (hb : baseValid r = true) (m : Option String) (hm : lenOK m 500 = true)
    (now : Nat) :
    ∃ ra, respondToRequest r r.member .accept m none now = .ok ra
      ∧ forceAcceptRequest r now =
          .ok { ra with
                memberResponse :=
                  { ra.memberResponse with
                    message := some "Force accepted by admin" }
                notifs := r.notifs } := by
  refine ⟨_, respond_accept_ok now hs hm hb, ?_⟩
  rw [forceAccept_ok now hs hb]

/-- Witness for `C9_force_accept_equiv` on `sampleReq`. -/
theorem C9_force_accept_equiv_witness :
    ∃ ra, respondToRequest sampleReq sampleReq.member .accept (some "hi")
        none 2000 = .ok ra
      ∧ forceAcceptRequest sampleReq 2000 =
          .ok { ra with
                memberResponse :=
                  { ra.memberResponse with
                    message := some "Force accepted by admin" }
                notifs := sampleReq.notifs } :=
  C9_force_accept_equiv sampleReq rfl (by decide) (some "hi") (by decide) 2000

/-- `POST /` with any error outcome leaves the store untouched. -/
theorem createRequest_err_store {st : Store} {b : CreateBody}
    {newId now : Nat} {c : Nat} {msg : String} {st2 : Store}
    (h : createRequest st b newId now = (.err c msg, st2)) : st2 = st := by
  unfold createRequest at h
  split at h
  · exact (congrArg Prod.snd h).symm
  split at h
  · exact (congrArg Prod.snd h).symm
  split at h
  · exact (congrArg Prod.snd h).symm
  split at h
  · exact (congrArg Prod.snd h).symm
  split at h
  · exact (congrArg Prod.snd h).symm
  split at h
  · exact (congrArg Prod.snd h).symm
  split at h
  · exact (congrArg Prod.snd h).symm
  split at h
  · exact (congrArg Prod.snd h).symm
  dsimp only at h
  split at h
  · exact (congrArg Prod.snd h).symm
  · split at h
    · exact (congrArg Prod.snd h).symm
    · exact absurd (congrArg Prod.fst h) (by simp)

/-- **C8**: every guard of the lifecycle routes answers its descriptive
error and mutates nothing — wrong caller (403), wrong status (400),
missing `proposedTime` on reschedule (400), missing / blacklisted /
inactive referenced entities on create (404/403/400); any erroring
per-request operation leaves the stored request unchanged, and any
erroring create leaves the store unchanged. -/
theorem C8_guard_failures :
    (∀ (r : Request) (cid : Nat) (a : RAction) (m : Option String)
        (p : Option Nat) (now : Nat), cid ≠ r.member →
        respondToRequest r cid a m p now = .err 403 "Access denied")
  ∧ (∀ (r : Request) (a : RAction) (m : Option String) (p : Option Nat)
        (now : Nat), r.status ≠ .pending →
        respondToRequest r r.member a m p now =
          .err 400 "Request is no longer pending")
  ∧ (∀ (r : Request) (m : Option String) (now : Nat), r.status = .pending →
        respondToRequest r r.member .reschedule m none now =
          .err 400 "Proposed time is required for rescheduling")
  ∧ (∀ (r : Request) (now : Nat), r.status ≠ .pending →
        forceAcceptRequest r now = .err 400 "Request is no longer pending")
  ∧ (∀ (r : Request) (g s : Option String) (now : Nat), r.status ≠ .accepted →
        markEntered r g s now =
          .err 400 "Request must be accepted before marking entry")
  ∧ (∀ (r : Request) (g s : Option String) (now : Nat), r.status = .accepted →
        r.entryDetails.enteredAt.isSome = true →
        markEntered r g s now =
          .err 400 "Visitor has already been marked as entered")
  ∧ (∀ (r : Request) (now : Nat), r.entryDetails.enteredAt = none →
        markExited r now =
          .err 400 "Visitor must be marked as entered before marking exit")
  ∧ (∀ (r : Request) (now : Nat), r.entryDetails.enteredAt.isSome = true →
        r.entryDetails.exitedAt.isSome = true →
        markExited r now =
          .err 400 "Visitor has already been marked as exited")
  ∧ (∀ (r : Request) (mid : Nat), mid ≠ r.member →
        cancelRequest r (.member mid) = .err 403 "Access denied")
  ∧ (∀ (r : Request) (c : Caller), canCancel c r = true →
        (r.status = .completed ∨ r.status = .cancelled) →
        cancelRequest r c = .err 400 "Request cannot be cancelled")
  ∧ (∀ (st : Store) (b : CreateBody) (newId now : Nat),
        st.visitors.find? (fun x => x.id = b.visitorId) = none →
        createRequest st b newId now = (.err 404 "Visitor not found", st))
  ∧ (∀ (st : Store) (b : CreateBody) (newId now : Nat) (v : VisitorRec),
        st.visitors.find? (fun x => x.id = b.visitorId) = some v →
        v.isBlacklisted = true →
        createRequest st b newId now =
          (.err 403 "Visitor is blacklisted and cannot make requests", st))
  ∧ (∀ (st : Store) (b : CreateBody) (newId now : Nat) (v : VisitorRec),
        st.visitors.find? (fun x => x.id = b.visitorId) = some v →
        v.isBlacklisted = false →
        st.companies.find? (fun x => x.id = b.companyId) = none →
        createRequest st b newId now = (.err 404 "Company not found", st))
  ∧ (∀ (st : Store) (b : CreateBody) (newId now : Nat)
        (v : VisitorRec) (co : CompanyRec),
        st.visitors.find? (fun x => x.id = b.visitorId) = some v →
        v.isBlacklisted = false →
        st.companies.find? (fun x => x.id = b.companyId) = some co →
        co.isActive = false →
        createRequest st b newId now = (.err 404 "Company not found", st))
  ∧ (∀ (st : Store) (b : CreateBody) (newId now : Nat)
        (v : VisitorRec) (co : CompanyRec),
        st.visitors.find? (fun x => x.id = b.visitorId) = some v →
        v.isBlacklisted = false →
        st.companies.find? (fun x => x.id = b.companyId) = some co →
        co.isActive = true →
        st.members.find? (fun x => x.id = b.memberId) = none →
        createRequest st b newId now = (.err 404 "Member not found", st))
  ∧ (∀ (st : Store) (b : CreateBody) (newId now : Nat)
        (v : VisitorRec) (co : CompanyRec) (mem : MemberRec),
        st.visitors.find? (fun x => x.id = b.visitorId) = some v →
        v.isBlacklisted = false →
        st.companies.find? (fun x => x.id = b.companyId) = some co →
        co.isActive = true →
        st.members.find? (fun x => x.id = b.memberId) = some mem →
        mem.isActive = false →
        createRequest st b newId now = (.err 404 "Member not found", st))
  ∧ (∀ (st : Store) (b : CreateBody) (newId now : Nat)
        (v : VisitorRec) (co : CompanyRec) (mem : MemberRec),
        st.visitors.find? (fun x => x.id = b.visitorId) = some v →
        v.isBlacklisted = false →
        st.companies.find? (fun x => x.id = b.companyId) = some co →
        co.isActive = true →
        st.members.find? (fun x => x.id = b.memberId) = some mem →
        mem.isActive = true →
        (mem.companies.find? fun mc =>
            mc.company = b.companyId && mc.isActive) = none →
        createRequest st b newId now =
          (.err 400 "Member does not belong to this company", st))
  ∧ (∀ (r : Request) (o : Op) (c : Nat) (msg : String),
        runOp r o = .err c msg → applyOp r o = r)
  ∧ (∀ (st : Store) (b : CreateBody) (newId now : Nat) (c : Nat)
        (msg : String) (st2 : Store),
        createRequest st b newId now = (.err c msg, st2) → st2 = st) := by
  refine ⟨?_, ?_, ?_, ?_, ?_, ?_, ?_, ?_, ?_, ?_, ?_, ?_, ?_, ?_, ?_, ?_, ?_,
    ?_, ?_⟩
  · intro r cid a m p now h
    unfold respondToRequest
    simp [h]
  · intro r a m p now h
    unfold respondToRequest
    simp [h]
  · intro r m now h
    unfold respondToRequest
    simp [h]
  · intro r now h
    unfold forceAcceptRequest
    simp [h]
  · intro r g s now h
    unfold markEntered
    simp [h]
  · intro r g s now h1 h2
    unfold markEntered
    obtain ⟨en, hen⟩ := Option.isSome_iff_exists.mp h2
    simp [h1, hen]
  · intro r now h
    unfold markExited
    simp [h]
  · intro r now h1 h2
    unfold markExited
    obtain ⟨en, hen⟩ := Option.isSome_iff_exists.mp h1
    obtain ⟨ex, hex⟩ := Option.isSome_iff_exists.mp h2
    simp [hen, hex]
  · intro r mid h
    unfold cancelRequest
    simp [canCancel, h]
  · intro r c hcc h
    unfold cancelRequest
    simp [hcc, h]
  · intro st b newId now h
    unfold createRequest
    simp [h]
  · intro st b newId now v hv hbl
    unfold createRequest
    simp [hv, hbl]
  · intro st b newId now v hv hbl hc
    unfold createRequest
    simp [hv, hbl, hc]
  · intro st b newId now v co hv hbl hc hca
    unfold createRequest
    simp [hv, hbl, hc, hca]
  · intro st b newId now v co hv hbl hc hca hm
    unfold createRequest
    simp [hv, hbl, hc, hca, hm]
  · intro st b newId now v co mem hv hbl hc hca hm hma
    unfold createRequest
    simp [hv, hbl, hc, hca, hm, hma]
  · intro st b newId now v co mem hv hbl hc hca hm hma hmc
    unfold createRequest
    simp [hv, hbl, hc, hca, hm, hma, hmc]
  · intro r o c msg h
    exact applyOp_eq_self h
  · intro st b newId now c msg st2 h
    exact createRequest_err_store h

/-- Witness for `C8_guard_failures`: cancelling a completed request. -/
theorem C8_guard_failures_witness :
    cancelRequest { sampleReq with status := .completed } (.admin 3)
        = .err 400 "Request cannot be cancelled" :=
  C8_guard_failures.2.2.2.2.2.2.2.2.2.1
    { sampleReq with status := .completed } (.admin 3) (by decide)
    (Or.inl (by decide))

/-- **C10**: a successful member response never touches any field outside
`status`, `memberResponse`, `entryDetails.allowedAt` and the notification
bookkeeping — in particular `scheduledTime` is unchanged unless the action
is `reschedule`, and a change of `scheduledTime` implies the action was
`reschedule`. -/
theorem C10_respond_frame (r : Request) (cid : Nat) (a : RAction)
    (m : Option String) (p : Option Nat) (now : Nat) (r2 : Request)
    (hok : respondToRequest r cid a m p now = .ok r2) :
    (a ≠ .reschedule → r2.scheduledTime = r.scheduledTime)
      ∧ (r2.scheduledTime ≠ r.scheduledTime → a = .reschedule)
      ∧ r2.id = r.id ∧ r2.visitor = r.visitor ∧ r2.company = r.company
      ∧ r2.member = r.member ∧ r2.purpose = r.purpose
      ∧ r2.purposeDescription = r.purposeDescription
      ∧ r2.duration = r.duration ∧ r2.priority = r.priority
      ∧ r2.queuePosition = r.queuePosition
      ∧ r2.estimatedWaitTime = r.estimatedWaitTime
      ∧ r2.entryDetails.enteredAt = r.entryDetails.enteredAt
      ∧ r2.entryDetails.exitedAt = r.entryDetails.exitedAt
      ∧ r2.entryDetails.entryGate = r.entryDetails.entryGate
      ∧ r2.entryDetails.securityPersonnel = r.entryDetails.securityPersonnel
      ∧ r2.isUrgent = r.isUrgent ∧ r2.tags = r.tags ∧ r2.notes = r.notes
      ∧ r2.createdAt = r.createdAt := by
  obtain ⟨-, -, he⟩ := respond_ok_shape hok
  rw [he]
  cases a <;> simp

/-- Witness for `C10_respond_frame`: a concrete decline on `sampleReq`. -/
theorem C10_respond_frame_witness :
    ((.decline : RAction) ≠ .reschedule →
        declinedSample.scheduledTime = sampleReq.scheduledTime)
      ∧ (declinedSample.scheduledTime ≠ sampleReq.scheduledTime →
          (.decline : RAction) = .reschedule)
      ∧ declinedSample.id = sampleReq.id
      ∧ declinedSample.visitor = sampleReq.visitor
      ∧ declinedSample.company = sampleReq.company
      ∧ declinedSample.member = sampleReq.member
      ∧ declinedSample.purpose = sampleReq.purpose
      ∧ declinedSample.purposeDescription = sampleReq.purposeDescription
      ∧ declinedSample.duration = sampleReq.duration
      ∧ declinedSample.priority = sampleReq.priority
      ∧ declinedSample.queuePosition = sampleReq.queuePosition
      ∧ declinedSample.estimatedWaitTime = sampleReq.estimatedWaitTime
      ∧ declinedSample.entryDetails.enteredAt = sampleReq.entryDetails.enteredAt
      ∧ declinedSample.entryDetails.exitedAt = sampleReq.entryDetails.exitedAt
      ∧ declinedSample.entryDetails.entryGate = sampleReq.entryDetails.entryGate
      ∧ declinedSample.entryDetails.securityPersonnel
          = sampleReq.entryDetails.securityPersonnel
      ∧ declinedSample.isUrgent = sampleReq.isUrgent
      ∧ declinedSample.tags = sampleReq.tags
      ∧ declinedSample.notes = sampleReq.notes
      ∧ declinedSample.createdAt = sampleReq.createdAt :=
  C10_respond_frame sampleReq 30 .decline none none 2000 declinedSample
    (by decide)

end VisitorMgmt
